import Mathlib

/-!
Verification development for the yaJS (Haru) web-application bootstrap layer.

The embedding follows `src/core/Application.ts`. Components whose source files
are not available (Properties, AppRouter, ApplicationCache, the metadata
reader in Utils) are modelled from the specification; each such definition
carries a doc comment saying so. Stateful JavaScript is embedded as explicit
state passing over `AppState`; object identity is modelled with a `ref` id;
an event trace records the observable side effects in order.
-/

namespace YaJS

/-- A JavaScript number as it matters for ports: NaN or an integer value. -/
inductive JSNum
  | nan
  | num (n : Int)
deriving DecidableEq

/-- The whitespace characters parseInt skips at the front of its input. -/
def jsWhitespace (c : Char) : Bool :=
  c = ' ' || c = '\t' || c = '\n' || c = '\r' || c = '\x0b' || c = '\x0c'

/-- Longest leading run of decimal digits. -/
def takeDigits (cs : List Char) : List Char :=
  cs.takeWhile Char.isDigit

/-- Numeric value of a list of decimal digits. -/
def digitsToNat (cs : List Char) : Nat :=
  cs.foldl (fun a c => a * 10 + (c.toNat - 48)) 0

/-- JavaScript parseInt(s, 10) on a character list: skip leading whitespace,
read an optional sign, then the longest run of decimal digits; the result is
NaN when no digit follows. -/
def parseIntChars (cs : List Char) : JSNum :=
  let rest := cs.dropWhile (fun c => jsWhitespace c)
  match rest with
  | '-' :: tl =>
      let d := takeDigits tl
      if d = [] then JSNum.nan else JSNum.num (-(digitsToNat d : Int))
  | '+' :: tl =>
      let d := takeDigits tl
      if d = [] then JSNum.nan else JSNum.num (digitsToNat d)
  | other =>
      let d := takeDigits other
      if d = [] then JSNum.nan else JSNum.num (digitsToNat d)

/-- JavaScript parseInt(s, 10) on a string. -/
def parseInt (s : String) : JSNum :=
  parseIntChars s.data

/-- The logger handed to the Application: the console by default, or any
other logger object (identified by an id). -/
inductive LoggerKind
  | console
  | custom (id : Nat)
deriving DecidableEq

/-- The Properties object: the path and logger it was constructed with, the
parsed key-value set, and whether the construction logged a warning. -/
structure Properties where
  path : String
  logger : LoggerKind
  props : List (String × String)
  warned : Bool
deriving DecidableEq

/-- Modelled from the spec: the Properties constructor (Properties.ts is not
under src/). It is given a path and a logger and reads and parses the JSON
file at that path at construction time; the file system is modelled as a
function from paths to an optional flat key-value map, `none` standing for a
missing file or content that does not parse as JSON. On failure it logs a
warning via the supplied logger (recorded in `warned`) and leaves the
property set empty; it never throws, which the embedding states by being a
total function. -/
def Properties.build (path : String) (logger : LoggerKind)
    (fs : String → Option (List (String × String))) : Properties :=
  match fs path with
  | some kvs => ⟨path, logger, kvs, false⟩
  | none => ⟨path, logger, [], true⟩

/-- Modelled from the spec: Properties.get(key) returns the value stored for
the key, or undefined (`none`) when the key is absent. -/
def Properties.get (p : Properties) (k : String) : Option String :=
  (p.props.find? (fun kv => kv.1 = k)).map (fun kv => kv.2)

/-- A route binding recorded by a method decorator: HTTP method, path, and
the name of the handler method. -/
structure RouteBinding where
  httpMethod : String
  path : String
  handlerName : String
deriving DecidableEq

/-- RestControllerConfig: the base path and ordered route bindings recorded
on a controller's prototype. -/
structure RestControllerConfig where
  basePath : String
  routes : List RouteBinding
deriving DecidableEq

/-- A controller class (a Newable): its class name, the value of the `name`
property found on its prototype — which is undefined (`none`) for an
ordinary class, since a class's name lives on the constructor, not on the
prototype — and the decorator metadata recorded on the prototype. -/
structure ControllerClass where
  className : String
  protoName : Option String
  meta : RestControllerConfig
deriving DecidableEq

/-- A controller instance: the class it was constructed from and a fresh
allocation id giving it an identity. -/
structure ControllerInst where
  ofClass : String
  instId : Nat
deriving DecidableEq

/-- Modelled from the spec: getControllerMetadata (Utils.ts is not under
src/) purely reads the base path and route bindings previously recorded on
the given prototype, with no side effects. -/
def getControllerMetadata (c : ControllerClass) : RestControllerConfig :=
  c.meta

/-- A route as registered with the underlying router: method, full path
(base path prepended), and the bound instance and handler. -/
structure RegisteredRoute where
  httpMethod : String
  fullPath : String
  inst : ControllerInst
  handlerName : String
deriving DecidableEq

/-- Modelled from the spec: AppRouter.configureEndpoints (AppRouter.ts is not
under src/). For each route binding, in the order of the routes sequence, it
registers a handler at basePath + path for the binding's HTTP method, bound
to the given controller instance. The value is the list of registrations
this call appends to the router's stack. -/
def configureEndpoints (routes : List RouteBinding) (inst : ControllerInst)
    (basePath : String) : List RegisteredRoute :=
  routes.map (fun r => ⟨r.httpMethod, basePath ++ r.path, inst, r.handlerName⟩)

/-- Modelled from the spec: ApplicationCache.set (ApplicationCache.ts is not
under src/): a process-wide map with last-write-wins on an existing key. The
key is whatever value the caller passes; Application passes
controllerClass.prototype.name, which may be undefined (`none`). -/
def cacheSet (cache : List (Option String × ControllerInst)) (k : Option String)
    (v : ControllerInst) : List (Option String × ControllerInst) :=
  if cache.any (fun e => e.1 = k) then
    cache.map (fun e => if e.1 = k then (k, v) else e)
  else cache ++ [(k, v)]

/-- Modelled from the spec: ApplicationCache.get by class name (a string). -/
def cacheGet (cache : List (Option String × ControllerInst)) (k : String) :
    Option ControllerInst :=
  (cache.find? (fun e => e.1 = some k)).map (fun e => e.2)

/-- The two middleware values the router exposes for mounting. -/
inductive MWKind
  | routerRoutes
  | routerAllowedMethods
deriving DecidableEq

/-- Observable side effects of the Application, recorded in order. -/
inductive Event
  | readMeta (className : String)
  | instantiate (className : String)
  | registerRoutes (className : String)
  | cacheWrite (key : Option String)
  | useMiddleware (m : MWKind)
  | listen (port : JSNum)
deriving DecidableEq

/-- The HTTP server handle returned by app.listen. -/
structure ServerState where
  port : JSNum
  listening : Bool
deriving DecidableEq

/-- The state of an Application object: its identity (`ref`), its fields,
the Koa app's mounted middleware, the router's registration stack, the
process-wide ApplicationCache, a fresh-id counter for instantiation, the
server handle once started, and the event trace. -/
structure AppState where
  ref : Nat
  controllers : List ControllerClass
  properties : Properties
  logger : LoggerKind
  routerStack : List RegisteredRoute
  cache : List (Option String × ControllerInst)
  nextInstId : Nat
  middleware : List MWKind
  server : Option ServerState
  trace : List Event
deriving DecidableEq

/-- ApplicationConfig as passed to the constructor; `none` marks an omitted
field. -/
structure ApplicationConfig where
  propertiesPath : Option String
  controllers : Option (List ControllerClass)
  logger : Option LoggerKind

/-- The Application constructor: destructuring defaults propertiesPath to
"/haru.config.json", controllers to [] and logger to console, creates the
Koa app and router (empty middleware and stack), and constructs the
Properties object with the resolved path and logger. -/
def Application.create (cfg : ApplicationConfig)
    (fs : String → Option (List (String × String))) (ref : Nat) : AppState :=
  let path := cfg.propertiesPath.getD "/haru.config.json"
  let logger := cfg.logger.getD LoggerKind.console
  { ref := ref
    controllers := cfg.controllers.getD []
    properties := Properties.build path logger fs
    logger := logger
    routerStack := []
    cache := []
    nextInstId := 0
    middleware := []
    server := none
    trace := [] }

/-- The body of the forEach loop in Application's init method, for one
controller class: read the metadata off the prototype, instantiate the
controller, register its routes with the router under its base path, then
write the instance into the ApplicationCache under the key
controllerClass.prototype.name. -/
def initStep (s : AppState) (c : ControllerClass) : AppState :=
  let meta := getControllerMetadata c
  let inst : ControllerInst := ⟨c.className, s.nextInstId⟩
  { s with
    nextInstId := s.nextInstId + 1
    routerStack := s.routerStack ++ configureEndpoints meta.routes inst meta.basePath
    cache := cacheSet s.cache c.protoName inst
    trace := s.trace ++
      [Event.readMeta c.className, Event.instantiate c.className,
       Event.registerRoutes c.className, Event.cacheWrite c.protoName] }

/-- Application's init method (spelled initialize() in the source): iterates
the configured controller classes in list order, running `initStep` for
each, and returns `this` — modelled as the pair of the updated state and the
reference of the object the return value points to. -/
def initApp (s : AppState) : AppState × Nat :=
  (s.controllers.foldl initStep s, s.ref)

/-- True for a JS string value that is truthy: present and non-empty. -/
def jsTruthy : Option String → Bool
  | none => false
  | some s => s ≠ ""

/-- Application.getPortFromProperties: `port ? parseInt(port, 10) :
undefined` on `port = this.properties.get('port')`. -/
def getPortFromProperties (s : AppState) : Option JSNum :=
  let port := Properties.get s.properties "port"
  if jsTruthy port then port.map parseInt else none

/-- The effective port of start(port): `this.getPortFromProperties() ??
port`. -/
def usedPort (s : AppState) (port : Int) : JSNum :=
  (getPortFromProperties s).getD (JSNum.num port)

/-- Application.start(port): mounts this.router.routes() and then
this.router.allowedMethods() onto the Koa app, resolves the effective port,
and opens the listener on it, keeping the server handle. -/
def start (s : AppState) (port : Int) : AppState :=
  let s1 := { s with
    middleware := s.middleware ++ [MWKind.routerRoutes, MWKind.routerAllowedMethods]
    trace := s.trace ++
      [Event.useMiddleware MWKind.routerRoutes,
       Event.useMiddleware MWKind.routerAllowedMethods] }
  let p := usedPort s1 port
  { s1 with
    server := some ⟨p, true⟩
    trace := s1.trace ++ [Event.listen p] }

/-- Application.start() called with no argument: the parameter defaults to
8080. -/
def startDefault (s : AppState) : AppState :=
  start s 8080

/-- The Node Server.close method as the spec describes it: stops the
listening socket and returns the server handle itself. -/
def serverClose (sv : ServerState) : ServerState :=
  { sv with listening := false }

/-- Application.close: `return this.server?.close()` — undefined when the
server was never started (and nothing else happens), otherwise the closed
server handle, which this.server keeps pointing at. -/
def close (s : AppState) : AppState × Option ServerState :=
  match s.server with
  | none => (s, none)
  | some sv => ({ s with server := some (serverClose sv) }, some (serverClose sv))

/-- The four events one controller contributes to the init trace. -/
def ctrlEvents (c : ControllerClass) : List Event :=
  [Event.readMeta c.className, Event.instantiate c.className,
   Event.registerRoutes c.className, Event.cacheWrite c.protoName]

/-- The router registrations produced by running init over a controller
list, with fresh instance ids starting at n. -/
def regsFrom : List ControllerClass → Nat → List RegisteredRoute
  | [], _ => []
  | c :: cs, n =>
      configureEndpoints c.meta.routes ⟨c.className, n⟩ c.meta.basePath ++
        regsFrom cs (n + 1)

/-- The (method, full path) keys of a list of registered routes. -/
def routeKeys (l : List RegisteredRoute) : List (String × String) :=
  l.map (fun r => (r.httpMethod, r.fullPath))

/-- The (method, full path) keys a controller list declares. -/
def declaredKeys (cs : List ControllerClass) : List (String × String) :=
  cs.flatMap (fun c => c.meta.routes.map (fun r => (r.httpMethod, c.meta.basePath ++ r.path)))

/-- A file system on which every read (or parse) fails. -/
def noneFs : String → Option (List (String × String)) := fun _ => none

/-- An Application built with an all-defaults config and no readable
properties file. -/
def plainApp : AppState :=
  Application.create ⟨none, none, none⟩ noneFs 0

/-- A file system whose config file sets the port property to "9191". -/
def ninePortFs : String → Option (List (String × String)) := fun _ => some [("port", "9191")]

/-- An Application whose port property is "9191". -/
def ninePortApp : AppState :=
  Application.create ⟨none, none, none⟩ ninePortFs 0

/-- A file system whose config file sets the port property to the empty
string. -/
def emptyPortFs : String → Option (List (String × String)) := fun _ => some [("port", "")]

/-- An Application whose port property is the empty string. -/
def emptyPortApp : AppState :=
  Application.create ⟨none, none, none⟩ emptyPortFs 0

/-- A file system whose config file sets the port property to a non-numeric
string. -/
def nanPortFs : String → Option (List (String × String)) := fun _ => some [("port", "abc")]

/-- An Application whose port property is the non-numeric string "abc". -/
def nanPortApp : AppState :=
  Application.create ⟨none, none, none⟩ nanPortFs 0

/-- An ordinary controller class named UserController; its prototype carries
no `name` property. -/
def userCtrl : ControllerClass :=
  ⟨"UserController", none, ⟨"/users", [⟨"get", "/", "list"⟩]⟩⟩

/-- An ordinary controller class named HelloWorldController; its prototype
carries no `name` property. -/
def helloCtrl : ControllerClass :=
  ⟨"HelloWorldController", none, ⟨"/hello", [⟨"get", "/", "index"⟩]⟩⟩

/-- An Application configured with the two example controllers. -/
def twoCtrlApp : AppState :=
  Application.create ⟨none, some [userCtrl, helloCtrl], none⟩ noneFs 0

lemma foldl_initStep_trace (cs : List ControllerClass) (s : AppState) :
    (cs.foldl initStep s).trace = s.trace ++ cs.flatMap ctrlEvents := by
  induction cs generalizing s with
  | nil => simp
  | cons c cs ih => simp [initStep, ih, ctrlEvents, getControllerMetadata]

lemma foldl_initStep_nextInstId (cs : List ControllerClass) (s : AppState) :
    (cs.foldl initStep s).nextInstId = s.nextInstId + cs.length := by
  induction cs generalizing s with
  | nil => simp
  | cons c cs ih =>
      simp only [List.foldl_cons, ih, initStep, List.length_cons]
      omega

lemma foldl_initStep_stack (cs : List ControllerClass) (s : AppState) :
    (cs.foldl initStep s).routerStack = s.routerStack ++ regsFrom cs s.nextInstId := by
  induction cs generalizing s with
  | nil => simp [regsFrom]
  | cons c cs ih => simp [initStep, ih, regsFrom, getControllerMetadata]

lemma foldl_initStep_ref (cs : List ControllerClass) (s : AppState) :
    (cs.foldl initStep s).ref = s.ref := by
  induction cs generalizing s with
  | nil => rfl
  | cons c cs ih => simp [initStep, ih]

lemma foldl_initStep_controllers (cs : List ControllerClass) (s : AppState) :
    (cs.foldl initStep s).controllers = s.controllers := by
  induction cs generalizing s with
  | nil => rfl
  | cons c cs ih => simp [initStep, ih]

lemma routeKeys_append (a b : List RegisteredRoute) :
    routeKeys (a ++ b) = routeKeys a ++ routeKeys b := by
  simp [routeKeys]

lemma routeKeys_regsFrom (cs : List ControllerClass) (n : Nat) :
    routeKeys (regsFrom cs n) = declaredKeys cs := by
  induction cs generalizing n with
  | nil => simp [regsFrom, routeKeys, declaredKeys]
  | cons c cs ih =>
      rw [regsFrom, routeKeys_append, ih]
      simp [routeKeys, configureEndpoints, declaredKeys, Function.comp]

lemma start_server_eq (s : AppState) (port : Int) :
    (start s port).server = some ⟨usedPort s port, true⟩ := by
  simp [start, usedPort, getPortFromProperties]

lemma start_trace_eq (s : AppState) (port : Int) :
    (start s port).trace = s.trace ++
      [Event.useMiddleware MWKind.routerRoutes,
       Event.useMiddleware MWKind.routerAllowedMethods,
       Event.listen (usedPort s port)] := by
  simp [start, usedPort, getPortFromProperties]

lemma start_middleware_eq (s : AppState) (port : Int) :
    (start s port).middleware
      = s.middleware ++ [MWKind.routerRoutes, MWKind.routerAllowedMethods] := by
  simp [start]

lemma close_some (s : AppState) (sv : ServerState) (h : s.server = some sv) :
    close s = ({ s with server := some (serverClose sv) }, some (serverClose sv)) := by
  simp [close, h]

/-- C1: the claim says initialize() leaves one cache entry per controller
class, keyed by the class name, with get(className) returning the registered
instance. The code keys the cache with controllerClass.prototype.name, which
is undefined for an ordinary class, so with the two example controllers the
cache ends up with a single entry under the undefined key, and lookup by
either class name returns undefined. -/
theorem cache_key_bug :
    (initApp twoCtrlApp).1.cache = [(none, ⟨"HelloWorldController", 1⟩)] ∧
    (initApp twoCtrlApp).1.cache.length = 1 ∧
    cacheGet (initApp twoCtrlApp).1.cache "UserController" = none ∧
    cacheGet (initApp twoCtrlApp).1.cache "HelloWorldController" = none := by
  refine ⟨by decide, by decide, by decide, by decide⟩

/-- C2 counterexample: with the port property present but equal to the empty
string, start(3000) binds the argument 3000, not parseInt of the property as
the claim states for every present property. -/
theorem start_port_claim_counterexample :
    Properties.get emptyPortApp.properties "port" = some "" ∧
    (start emptyPortApp 3000).server = some ⟨JSNum.num 3000, true⟩ ∧
    (start emptyPortApp 3000).server ≠ some ⟨parseInt "", true⟩ := by
  refine ⟨by decide, by decide, by decide⟩

/-- C2 (amended): the effective listening port is properties.get('port')
parsed as an integer when that property is present and non-empty, and
otherwise — the property absent or the empty string — the port argument,
whose default is 8080; in particular with no port property and no argument
it binds 8080, and with the property "9191" it binds 9191 regardless of the
argument. -/
theorem start_port_resolution (s : AppState) (port : Int) :
    (∀ p, Properties.get s.properties "port" = some p → p ≠ "" →
        (start s port).server = some ⟨parseInt p, true⟩) ∧
    (Properties.get s.properties "port" = none →
        (start s port).server = some ⟨JSNum.num port, true⟩ ∧
        (startDefault s).server = some ⟨JSNum.num 8080, true⟩) ∧
    (Properties.get s.properties "port" = some "" →
        (start s port).server = some ⟨JSNum.num port, true⟩ ∧
        (startDefault s).server = some ⟨JSNum.num 8080, true⟩) ∧
    (Properties.get s.properties "port" = some "9191" →
        (start s port).server = some ⟨JSNum.num 9191, true⟩) := by
  have hs := start_server_eq s port
  have hd := start_server_eq s 8080
  refine ⟨?_, ?_, ?_, ?_⟩
  · intro p hp hne
    rw [hs]
    simp [usedPort, getPortFromProperties, hp, jsTruthy, hne]
  · intro hp
    constructor
    · rw [hs]
      simp [usedPort, getPortFromProperties, hp, jsTruthy]
    · rw [show startDefault s = start s 8080 from rfl, hd]
      simp [usedPort, getPortFromProperties, hp, jsTruthy]
  · intro hp
    constructor
    · rw [hs]
      simp [usedPort, getPortFromProperties, hp, jsTruthy]
    · rw [show startDefault s = start s 8080 from rfl, hd]
      simp [usedPort, getPortFromProperties, hp, jsTruthy]
  · intro hp
    rw [hs]
    have h9 : parseInt "9191" = JSNum.num 9191 := by decide
    simp [usedPort, getPortFromProperties, hp, jsTruthy, h9]

/-- C2 witness: with the property "9191" start(3000) binds 9191; with no
readable properties file and the default argument, start() binds 8080; with
the property equal to the empty string, start(3000) binds the argument
3000. -/
theorem start_port_resolution_witness :
    (start ninePortApp 3000).server = some ⟨JSNum.num 9191, true⟩ ∧
    (startDefault plainApp).server = some ⟨JSNum.num 8080, true⟩ ∧
    (start emptyPortApp 3000).server = some ⟨JSNum.num 3000, true⟩ :=
  ⟨(start_port_resolution ninePortApp 3000).2.2.2 (by decide),
   ((start_port_resolution plainApp 3000).2.1 (by decide)).2,
   ((start_port_resolution emptyPortApp 3000).2.2.1 (by decide)).1⟩

/-- C3: close() before any start returns undefined and leaves the state
unchanged; close() after start(port) returns the server handle — the very
server object the application holds — with its listener stopped. -/
theorem close_behavior (s : AppState) (port : Int) :
    (s.server = none → close s = (s, none)) ∧
    (close (start s port)).2 = some ⟨usedPort s port, false⟩ ∧
    (close (start s port)).1.server = (close (start s port)).2 := by
  have hs := start_server_eq s port
  have hc := close_some (start s port) ⟨usedPort s port, true⟩ hs
  refine ⟨?_, ?_, ?_⟩
  · intro h
    simp [close, h]
  · rw [hc]
    rfl
  · rw [hc]

/-- C3 witness: closing the never-started plain application returns
undefined with the state unchanged; closing it after start(3000) returns the
stopped server handle on port 3000. -/
theorem close_behavior_witness :
    close plainApp = (plainApp, none) ∧
    (close (start plainApp 3000)).2 = some ⟨JSNum.num 3000, false⟩ := by
  have h := close_behavior plainApp 3000
  refine ⟨h.1 (by decide), ?_⟩
  have h2 := h.2.1
  have hu : usedPort plainApp 3000 = JSNum.num 3000 := by decide
  rw [hu] at h2
  exact h2

/-- C4: initialize() processes the configured controllers in list order and,
for each one in turn, reads the metadata, instantiates the controller,
registers its routes, then writes the cache — the event trace is exactly the
per-controller blocks concatenated in list order, and the router stack grows
by the registrations of each controller in that same order. -/
theorem initApp_order (s : AppState) :
    (initApp s).1.trace = s.trace ++ s.controllers.flatMap ctrlEvents ∧
    (initApp s).1.routerStack = s.routerStack ++ regsFrom s.controllers s.nextInstId :=
  ⟨foldl_initStep_trace s.controllers s, foldl_initStep_stack s.controllers s⟩

/-- C5: initialize() returns this — the returned reference is the
application's own reference, and the updated state keeps that identity, so
chaining start() acts on the same instance. -/
theorem initApp_returns_this (s : AppState) :
    (initApp s).2 = s.ref ∧ (initApp s).1.ref = s.ref :=
  ⟨rfl, foldl_initStep_ref s.controllers s⟩

/-- C6: initialize() is not idempotent — a second call registers every
declared (method, path) route key a second time, appends the whole
per-controller event block (metadata read, instantiation, registration,
cache write) a second time, and allocates a fresh instance for each
controller again. -/
theorem initApp_not_idempotent (s : AppState) :
    routeKeys (initApp (initApp s).1).1.routerStack
      = routeKeys s.routerStack ++ declaredKeys s.controllers ++ declaredKeys s.controllers ∧
    (initApp (initApp s).1).1.trace
      = s.trace ++ s.controllers.flatMap ctrlEvents ++ s.controllers.flatMap ctrlEvents ∧
    (initApp (initApp s).1).1.nextInstId = s.nextInstId + 2 * s.controllers.length := by
  have hc := foldl_initStep_controllers s.controllers s
  refine ⟨?_, ?_, ?_⟩
  · show routeKeys ((((s.controllers.foldl initStep s).controllers).foldl initStep
        (s.controllers.foldl initStep s)).routerStack) = _
    rw [foldl_initStep_stack, routeKeys_append, foldl_initStep_stack, routeKeys_append,
        routeKeys_regsFrom, routeKeys_regsFrom, hc]
  · show ((((s.controllers.foldl initStep s).controllers).foldl initStep
        (s.controllers.foldl initStep s)).trace) = _
    rw [foldl_initStep_trace, foldl_initStep_trace, hc]
  · show ((((s.controllers.foldl initStep s).controllers).foldl initStep
        (s.controllers.foldl initStep s)).nextInstId) = _
    rw [foldl_initStep_nextInstId, foldl_initStep_nextInstId, hc]
    omega

/-- C7: every start(port) call mounts router.routes() first, then
router.allowedMethods(), and only then opens the listener — visible both in
the event trace and in the Koa app's middleware list. -/
theorem start_mount_order (s : AppState) (port : Int) :
    (start s port).trace = s.trace ++
      [Event.useMiddleware MWKind.routerRoutes,
       Event.useMiddleware MWKind.routerAllowedMethods,
       Event.listen (usedPort s port)] ∧
    (start s port).middleware
      = s.middleware ++ [MWKind.routerRoutes, MWKind.routerAllowedMethods] :=
  ⟨start_trace_eq s port, start_middleware_eq s port⟩

/-- C8: with an all-omitted ApplicationConfig the constructor builds the
Properties object with the path "/haru.config.json", leaves the controller
list empty, and uses the console logger. -/
theorem constructor_defaults (fs : String → Option (List (String × String))) (r : Nat) :
    (Application.create ⟨none, none, none⟩ fs r).properties.path = "/haru.config.json" ∧
    (Application.create ⟨none, none, none⟩ fs r).controllers = [] ∧
    (Application.create ⟨none, none, none⟩ fs r).logger = LoggerKind.console := by
  refine ⟨?_, rfl, rfl⟩
  show (Properties.build "/haru.config.json" LoggerKind.console fs).path = _
  unfold Properties.build
  cases fs "/haru.config.json" <;> rfl

/-- C9: when reading or parsing the properties file fails, construction logs
a warning, leaves the property set empty, and every get(key) — in particular
get('port') — returns undefined; construction is a total function, so it
never throws. -/
theorem properties_fail_open (path : String) (lg : LoggerKind)
    (fs : String → Option (List (String × String))) (k : String)
    (h : fs path = none) :
    (Properties.build path lg fs).props = [] ∧
    (Properties.build path lg fs).warned = true ∧
    Properties.get (Properties.build path lg fs) k = none := by
  unfold Properties.build Properties.get
  rw [h]
  simp

/-- C9 witness: the default path with an always-failing file system yields
an empty property set, a logged warning, and get('port') = undefined. -/
theorem properties_fail_open_witness :
    (Properties.build "/haru.config.json" LoggerKind.console noneFs).props = [] ∧
    (Properties.build "/haru.config.json" LoggerKind.console noneFs).warned = true ∧
    Properties.get (Properties.build "/haru.config.json" LoggerKind.console noneFs) "port"
      = none :=
  properties_fail_open "/haru.config.json" LoggerKind.console noneFs "port" rfl

/-- C10: when the port property is the empty string, start(port) falls back
to the argument; when it is a non-empty string whose parse is NaN, the
fallback is not taken and NaN becomes the listening port. -/
theorem port_edge_cases (s : AppState) (port : Int) :
    (Properties.get s.properties "port" = some "" →
      (start s port).server = some ⟨JSNum.num port, true⟩) ∧
    (∀ p, Properties.get s.properties "port" = some p → p ≠ "" →
      parseInt p = JSNum.nan →
      (start s port).server = some ⟨JSNum.nan, true⟩) := by
  have hs := start_server_eq s port
  constructor
  · intro hp
    rw [hs]
    simp [usedPort, getPortFromProperties, hp, jsTruthy]
  · intro p hp hne hnan
    rw [hs]
    simp [usedPort, getPortFromProperties, hp, jsTruthy, hne, hnan]

/-- C10 witness: the empty-string port application started with 8080 binds
8080; the "abc" port application started with 8080 binds NaN. -/
theorem port_edge_cases_witness :
    (start emptyPortApp 8080).server = some ⟨JSNum.num 8080, true⟩ ∧
    (start nanPortApp 8080).server = some ⟨JSNum.nan, true⟩ :=
  ⟨(port_edge_cases emptyPortApp 8080).1 (by decide),
   (port_edge_cases nanPortApp 8080).2 "abc" (by decide) (by decide) (by decide)⟩

end YaJS
